import Mathlib

/-!
Verification development for the watermelon (Suika-style) merge game.

The definitions below are a shallow embedding of the game-logic source:
  - fruit table and scoring      (src/config/fruits.ts)
  - game configuration           (src/config/game.ts)
  - physics world as body list   (src/engine/PhysicsEngine.ts, positions in ℚ)
  - collision/merge resolution   (src/engine/CollisionHandler.ts)
  - score ledger                 (src/managers/ScoreManager.ts)
  - deadline checker             (src/engine/DeadlineChecker.ts)
  - session orchestration        (src/Game.ts)

The rigid-body simulation itself (integration, contact detection), rendering,
sound, DOM UI and localStorage persistence are external collaborators and are
not modelled; the physics world is modelled as the list of bodies it holds,
with creation/removal requests embedded faithfully.  JavaScript timers
(setTimeout/clearTimeout) are modelled by explicit handle allocation: a
`pending` multiset of outstanding timeouts, which an `elapse` action may fire.
-/

namespace Watermelon

/-! ### Fruit configuration (src/config/fruits.ts) -/

abbrev FruitLevel := Nat

/-- FRUIT_LEVELS.WATERMELON from fruits.ts (11 levels, cherry = 1). -/
def WATERMELON : FruitLevel := 11

/-- FRUIT_CONFIG radius column (fruits.ts lines 29-107). -/
def fruitRadius : FruitLevel → ℚ
  | 1 => 25
  | 2 => 35
  | 3 => 48
  | 4 => 60
  | 5 => 75
  | 6 => 88
  | 7 => 102
  | 8 => 118
  | 9 => 135
  | 10 => 155
  | 11 => 180
  | _ => 0

/-- FRUIT_CONFIG droppable column (true exactly for levels 1-5). -/
def fruitDroppable : FruitLevel → Bool
  | 1 => true
  | 2 => true
  | 3 => true
  | 4 => true
  | 5 => true
  | _ => false

/-- SCORE_TABLE from fruits.ts lines 114-127, exactly as written in the source. -/
def SCORE_TABLE : List Nat := [0, 1, 3, 6, 10, 15, 21, 28, 36, 45, 55, 66]

/-- calculateMergeScore from fruits.ts lines 149-151: SCORE_TABLE[resultLevel] ?? 0. -/
def calculateMergeScore (resultLevel : Nat) : Nat :=
  (SCORE_TABLE.get? resultLevel).getD 0

/-- DROPPABLE_LEVELS from fruits.ts line 133. -/
def DROPPABLE_LEVELS : List FruitLevel := [1, 2, 3, 4, 5]

/-- getRandomDroppableFruit (fruits.ts lines 139-142) with the random source made
an explicit oracle: the head of the supplied stream plays the role of
Math.floor(Math.random() * DROPPABLE_LEVELS.length), reduced mod the length so
that any oracle value denotes a valid index. -/
def drawDroppable : List Nat → FruitLevel × List Nat
  | [] => (1, [])
  | i :: rest => ((DROPPABLE_LEVELS.get? (i % DROPPABLE_LEVELS.length)).getD 1, rest)

/-! ### Game configuration (src/config/game.ts) -/

structure GameConfig where
  width : ℚ
  height : ℚ
  wallThickness : ℚ
  deadlineY : ℚ
  dropY : ℚ
  dropCooldown : ℚ
  deadlineGracePeriod : ℚ
deriving DecidableEq

/-- GAME_CONFIG from game.ts lines 11-46. -/
def GAME_CONFIG : GameConfig :=
  { width := 450, height := 600, wallThickness := 20, deadlineY := 100,
    dropY := 80, dropCooldown := 500, deadlineGracePeriod := 2000 }

/-- getMaxDroppableRadius (game.ts lines 110-113), the default radius used by
clampDropX when no explicit radius is passed. -/
def getMaxDroppableRadius : ℚ := 49

/-- getDropXRangeForFruit (game.ts lines 120-124). -/
def getDropXRangeForFruit (fruitRadius : ℚ) : ℚ × ℚ :=
  (GAME_CONFIG.wallThickness + fruitRadius,
   GAME_CONFIG.width - GAME_CONFIG.wallThickness - fruitRadius)

/-- clampDropX (game.ts lines 140-144); all call sites in Game.ts pass the
current fruit's radius explicitly. -/
def clampDropX (x : ℚ) (radius : ℚ) : ℚ :=
  let r := getDropXRangeForFruit radius
  max r.1 (min r.2 x)

/-! ### Physics world (src/engine/PhysicsEngine.ts)

A Matter.js body is reduced to the fields the game logic reads: the engine-
assigned numeric identity, the label, the `plugin.fruitLevel` tag (meaningful
only on fruit bodies) and the position.  Body removal is by identity, which
matches Matter's removal by object reference because identities are unique.
The source labels are the strings 'floor', 'wall_left', 'wall_right' and
'fruit_<level>'; they are embedded as an inductive type so that the prefix
test label.startsWith('fruit_') becomes the `fruit` constructor test, with the
label's own numeric suffix kept separate from the plugin tag. -/

inductive BodyLabel where
  | floor
  | wall_left
  | wall_right
  | fruit (n : Nat)
deriving DecidableEq

structure MBody where
  id : Nat
  label : BodyLabel
  fruitLevel : FruitLevel
  posX : ℚ
  posY : ℚ
deriving DecidableEq

/-- isFruitBody (src/types, quoted in specs/physics-spec.md lines 576-578):
body.label?.startsWith('fruit_') ?? false. -/
def isFruitBody (b : MBody) : Bool :=
  match b.label with
  | BodyLabel.fruit _ => true
  | _ => false

structure PhysicsState where
  bodies : List MBody
  nextId : Nat
deriving DecidableEq

/-- createFruit (PhysicsEngine.ts lines 134-150): a circle body labelled
fruit_<level> with plugin.fruitLevel = level; Matter assigns the next free id. -/
def createFruit (p : PhysicsState) (x y : ℚ) (level : FruitLevel) : MBody × PhysicsState :=
  (⟨p.nextId, BodyLabel.fruit level, level, x, y⟩, { p with nextId := p.nextId + 1 })

/-- addBody (PhysicsEngine.ts lines 155-157). -/
def addBody (p : PhysicsState) (b : MBody) : PhysicsState :=
  { p with bodies := p.bodies ++ [b] }

/-- removeBodies (PhysicsEngine.ts lines 169-171): World.remove of the given
bodies, modelled as dropping every world body whose identity is among them. -/
def removeBodies (p : PhysicsState) (bs : List MBody) : PhysicsState :=
  { p with bodies := p.bodies.filter (fun x => bs.all (fun b => b.id ≠ x.id)) }

/-- getFruits (PhysicsEngine.ts lines 176-180). -/
def getFruits (p : PhysicsState) : List MBody :=
  p.bodies.filter (fun b => isFruitBody b)

/-- clearFruits (PhysicsEngine.ts lines 207-210). -/
def clearFruits (p : PhysicsState) : PhysicsState :=
  removeBodies p (getFruits p)

/-- physicsReset = PhysicsEngine.reset (lines 215-217). -/
def physicsReset (p : PhysicsState) : PhysicsState :=
  clearFruits p

/-- setupWalls (PhysicsEngine.ts lines 71-103): floor and two walls, created
first so they hold the first three identities. -/
def physicsInit : PhysicsState :=
  { bodies :=
      [ ⟨1, BodyLabel.floor, 0, GAME_CONFIG.width / 2, GAME_CONFIG.height - GAME_CONFIG.wallThickness / 2⟩,
        ⟨2, BodyLabel.wall_left, 0, GAME_CONFIG.wallThickness / 2, GAME_CONFIG.height / 2⟩,
        ⟨3, BodyLabel.wall_right, 0, GAME_CONFIG.width - GAME_CONFIG.wallThickness / 2, GAME_CONFIG.height / 2⟩ ],
    nextId := 4 }

/-! ### Collision handler (src/engine/CollisionHandler.ts)

The two callbacks (onMerge, onWatermelonVanish) are observed through an
append-only event log `out`; the Game wiring that consumes them is modelled
separately below. -/

inductive CHEvent where
  | merge (level : FruitLevel) (x y : ℚ) (score : Nat)
  | vanish (x y : ℚ)
deriving DecidableEq

structure CHState where
  physics : PhysicsState
  mergeQueue : Finset Nat
  out : List CHEvent
deriving DecidableEq

/-- processMerge (CollisionHandler.ts lines 87-121): midpoint, remove both
sources, clear both ids from the queue, then either vanish (watermelon) or
create the next-level fruit and emit a merge event whose score field is 0. -/
def processMerge (st : CHState) (fruitA fruitB : MBody) (level : FruitLevel) : CHState :=
  let mergeX := (fruitA.posX + fruitB.posX) / 2
  let mergeY := (fruitA.posY + fruitB.posY) / 2
  let p1 := removeBodies st.physics [fruitA, fruitB]
  let q1 := ((st.mergeQueue.erase fruitA.id).erase fruitB.id)
  if level = WATERMELON then
    { physics := p1, mergeQueue := q1, out := st.out ++ [CHEvent.vanish mergeX mergeY] }
  else
    let newLevel := level + 1
    let created := createFruit p1 mergeX mergeY newLevel
    let p2 := addBody created.2 created.1
    { physics := p2, mergeQueue := q1,
      out := st.out ++ [CHEvent.merge newLevel mergeX mergeY 0] }

/-- handleCollision (CollisionHandler.ts lines 53-82): reject non-fruit pairs,
unequal levels, and pairs with an id already queued; otherwise add both ids to
the queue and process the merge. -/
def handleCollision (st : CHState) (bodyA bodyB : MBody) : CHState :=
  if !isFruitBody bodyA || !isFruitBody bodyB then st
  else
    let levelA := bodyA.fruitLevel
    let levelB := bodyB.fruitLevel
    if levelA ≠ levelB then st
    else if bodyA.id ∈ st.mergeQueue ∨ bodyB.id ∈ st.mergeQueue then st
    else
      let st1 := { st with mergeQueue := insert bodyB.id (insert bodyA.id st.mergeQueue) }
      processMerge st1 bodyA bodyB levelA

/-- clearMergeQueue (CollisionHandler.ts lines 133-135). -/
def clearMergeQueue (st : CHState) : CHState :=
  { st with mergeQueue := ∅ }

/-- CollisionHandler.reset (lines 140-142). -/
def chReset (st : CHState) : CHState :=
  clearMergeQueue st

/-! ### Score ledger (src/managers/ScoreManager.ts)

The localStorage round-trip is an external collaborator; the in-memory ledger
is embedded exactly.  Listeners only forward state to the DOM and are not
modelled. -/

structure ScoreState where
  current : Nat
  highScore : Nat
  mergeCount : Nat
deriving DecidableEq

/-- addMergeScore (ScoreManager.ts lines 75-88). -/
def addMergeScore (s : ScoreState) (resultLevel : FruitLevel) : ScoreState :=
  let points := calculateMergeScore resultLevel
  let cur := s.current + points
  { current := cur,
    highScore := if cur > s.highScore then cur else s.highScore,
    mergeCount := s.mergeCount + 1 }

/-- The fixed bonusPoints constant inside addWatermelonBonus (ScoreManager.ts
line 95). -/
def WATERMELON_BONUS : Nat := 66

/-- addWatermelonBonus (ScoreManager.ts lines 94-106). -/
def addWatermelonBonus (s : ScoreState) : ScoreState :=
  let cur := s.current + WATERMELON_BONUS
  { current := cur,
    highScore := if cur > s.highScore then cur else s.highScore,
    mergeCount := s.mergeCount + 1 }

/-- ScoreManager.reset (lines 111-115): current and mergeCount cleared, the
high score untouched. -/
def scoreReset (s : ScoreState) : ScoreState :=
  { s with current := 0, mergeCount := 0 }

/-! ### Deadline checker (src/engine/DeadlineChecker.ts)

setTimeout / clearTimeout are modelled by explicit handles: `startGracePeriod`
allocates a fresh handle into the `pending` list of outstanding timeouts,
`cancelGracePeriod` removes the tracked handle, and an `elapse` of a handle
still in `pending` runs the scheduled triggerGameOver callback.  Warning
signals are observed through an append-only log. -/

structure DCState where
  deadlineTimer : Option Nat
  isInGracePeriod : Bool
  pending : List Nat
  nextHandle : Nat
  warnings : List Bool
  gameOverCount : Nat
deriving DecidableEq

/-- Constructor state (DeadlineChecker.ts lines 27-28): no timer, not in grace
period. -/
def dcInit : DCState :=
  { deadlineTimer := none, isInGracePeriod := false, pending := [],
    nextHandle := 0, warnings := [], gameOverCount := 0 }

/-- isAnyFruitOverDeadline (DeadlineChecker.ts lines 69-76). -/
def isAnyFruitOverDeadline (fruits : List MBody) : Bool :=
  fruits.any fun fruit =>
    let radius := fruitRadius fruit.fruitLevel
    let fruitTop := fruit.posY - radius
    fruitTop < GAME_CONFIG.deadlineY

/-- startGracePeriod (DeadlineChecker.ts lines 81-95): early return when a
timer is already running, otherwise emit warning(true) and arm one fresh
timeout. -/
def startGracePeriod (st : DCState) : DCState :=
  match st.deadlineTimer with
  | some _ => st
  | none =>
      { st with isInGracePeriod := true,
                warnings := st.warnings ++ [true],
                deadlineTimer := some st.nextHandle,
                pending := st.pending ++ [st.nextHandle],
                nextHandle := st.nextHandle + 1 }

/-- cancelGracePeriod (DeadlineChecker.ts lines 100-112): early return when no
timer is tracked, otherwise clearTimeout it and emit warning(false). -/
def cancelGracePeriod (st : DCState) : DCState :=
  match st.deadlineTimer with
  | none => st
  | some h =>
      { st with pending := st.pending.erase h,
                deadlineTimer := none,
                isInGracePeriod := false,
                warnings := st.warnings ++ [false] }

/-- triggerGameOver (DeadlineChecker.ts lines 117-124), the body of the armed
timeout callback. -/
def triggerGameOver (st : DCState) : DCState :=
  { st with deadlineTimer := none, isInGracePeriod := false,
            gameOverCount := st.gameOverCount + 1 }

/-- DeadlineChecker.check (lines 55-64). -/
def dcCheck (fruits : List MBody) (st : DCState) : DCState :=
  if isAnyFruitOverDeadline fruits then startGracePeriod st
  else cancelGracePeriod st

/-- An outstanding timeout elapsing: a JavaScript timer fires only if it was
neither cleared nor already fired, and firing consumes it. -/
def dcElapse (h : Nat) (st : DCState) : DCState :=
  if h ∈ st.pending then triggerGameOver { st with pending := st.pending.erase h }
  else st

/-- DeadlineChecker.reset (lines 136-138). -/
def dcReset (st : DCState) : DCState :=
  cancelGracePeriod st

/-- The checker's environment: per-tick checks against the current fruit list,
interleaved with timer expirations. -/
inductive DCAction where
  | check (fruits : List MBody)
  | elapse (handle : Nat)

def dcStep (st : DCState) : DCAction → DCState
  | DCAction.check fruits => dcCheck fruits st
  | DCAction.elapse h => dcElapse h st

def dcRun (acts : List DCAction) : DCState :=
  acts.foldl dcStep dcInit

/-- Timer discipline invariant: the outstanding timeouts are exactly the
tracked one (so never more than one), and every outstanding handle was
allocated in the past. -/
def dcInv (st : DCState) : Prop :=
  match st.deadlineTimer with
  | none => st.pending = []
  | some h => st.pending = [h] ∧ h < st.nextHandle

/-! ### Session orchestration (src/Game.ts)

Rendering, sound, DOM widgets and the stats tracker are external collaborators
and are omitted; everything the claims mention (collision wiring, score wiring,
drop gating, cooldown, restart) is embedded.  The drop cooldown timeout is a
single one-shot flag because Game.ts clears it before ever arming another. -/

inductive GameState where
  | READY
  | PLAYING
  | PAUSED
  | GAME_OVER
deriving DecidableEq

structure GameSt where
  ch : CHState
  dc : DCState
  score : ScoreState
  state : GameState
  currentFruit : FruitLevel
  nextFruit : FruitLevel
  canDrop : Bool
  dropX : ℚ
  lastDropTime : ℚ
  dropCooldownArmed : Bool
  rand : List Nat
deriving DecidableEq

/-- The collision wiring from Game.setupCallbacks (Game.ts lines 82-100): run
the collision handler, then feed each event it emitted during this call to the
score manager (onMerge → addMergeScore(event.level), onWatermelonVanish →
addWatermelonBonus). -/
def applyCollisionEvents (s : ScoreState) (evs : List CHEvent) : ScoreState :=
  evs.foldl
    (fun acc e =>
      match e with
      | CHEvent.merge level _ _ _ => addMergeScore acc level
      | CHEvent.vanish _ _ => addWatermelonBonus acc)
    s

def onCollisionGame (g : GameSt) (a b : MBody) : GameSt :=
  let ch' := handleCollision g.ch a b
  let newEvents := ch'.out.drop g.ch.out.length
  { g with ch := ch', score := applyCollisionEvents g.score newEvents }

/-- Game constructor state (Game.ts lines 47-76): fresh subsystems, two random
droppable fruits, aim centred.  The persisted high score is modelled as absent
(ScoreManager fails open to 0). -/
def gameInit (rand : List Nat) : GameSt :=
  let d1 := drawDroppable rand
  let d2 := drawDroppable d1.2
  { ch := { physics := physicsInit, mergeQueue := ∅, out := [] },
    dc := dcInit,
    score := { current := 0, highScore := 0, mergeCount := 0 },
    state := GameState.READY,
    currentFruit := d1.1,
    nextFruit := d2.1,
    canDrop := true,
    dropX := GAME_CONFIG.width / 2,
    lastDropTime := 0,
    dropCooldownArmed := false,
    rand := d2.2 }

/-- dropFruit (Game.ts lines 282-309): cooldown re-check against the clock,
spawn the current fruit at (dropX, dropY), advance the queue, arm the cooldown. -/
def dropFruit (now : ℚ) (g : GameSt) : GameSt :=
  if now - g.lastDropTime < GAME_CONFIG.dropCooldown then g
  else
    let created := createFruit g.ch.physics g.dropX GAME_CONFIG.dropY g.currentFruit
    let p2 := addBody created.2 created.1
    let d1 := drawDroppable g.rand
    { g with ch := { g.ch with physics := p2 },
             currentFruit := g.nextFruit,
             nextFruit := d1.1,
             rand := d1.2,
             lastDropTime := now,
             canDrop := false,
             dropCooldownArmed := true }

/-- Game.restart (Game.ts lines 380-406): clear the cooldown timeout, reset
physics, collision handler, deadline checker and score, redraw the fruit
queue, re-centre the aim and return to PLAYING.  (statsManager and renderer
resets touch no modelled state.) -/
def restart (g : GameSt) : GameSt :=
  let d1 := drawDroppable g.rand
  let d2 := drawDroppable d1.2
  { g with dropCooldownArmed := false,
           ch := chReset { g.ch with physics := physicsReset g.ch.physics },
           dc := dcReset g.dc,
           score := scoreReset g.score,
           currentFruit := d1.1,
           nextFruit := d2.1,
           rand := d2.2,
           dropX := GAME_CONFIG.width / 2,
           canDrop := true,
           lastDropTime := 0,
           state := GameState.PLAYING }

/-- The session's external stimuli: pointer aiming (handleMouseMove, Game.ts
lines 132-137, with x already canvas-relative), keyboard aiming (lines
255-266), the click/space drop path (handleClickWithPosition line 221 →
dropFruit), the cooldown timeout firing (lines 305-308), a reported collision
pair, the per-tick deadline check inside update() (lines 324-329), the grace
timer firing (gameOver, lines 371-375), and the READY-click start /
GAME_OVER-click restart affordances. -/
inductive GAction where
  | mouseMove (x : ℚ)
  | keyLeft
  | keyRight
  | clickDrop (now : ℚ)
  | cooldownFire
  | collide (bodyA bodyB : MBody)
  | tickCheck
  | deadlineElapse (handle : Nat)
  | startGame
  | restartGame

def gameStep (g : GameSt) : GAction → GameSt
  | GAction.mouseMove x =>
      if g.state ≠ GameState.PLAYING then g
      else { g with dropX := clampDropX x (fruitRadius g.currentFruit) }
  | GAction.keyLeft =>
      if g.state ≠ GameState.PLAYING then g
      else { g with dropX := clampDropX (g.dropX - 10) (fruitRadius g.currentFruit) }
  | GAction.keyRight =>
      if g.state ≠ GameState.PLAYING then g
      else { g with dropX := clampDropX (g.dropX + 10) (fruitRadius g.currentFruit) }
  | GAction.clickDrop now =>
      if g.state = GameState.PLAYING ∧ g.canDrop = true then dropFruit now g else g
  | GAction.cooldownFire =>
      if g.dropCooldownArmed then { g with canDrop := true, dropCooldownArmed := false }
      else g
  | GAction.collide a b => onCollisionGame g a b
  | GAction.tickCheck =>
      if g.state ≠ GameState.PLAYING then g
      else { g with dc := dcCheck (getFruits g.ch.physics) g.dc }
  | GAction.deadlineElapse h =>
      if h ∈ g.dc.pending then
        { g with dc := triggerGameOver { g.dc with pending := g.dc.pending.erase h },
                 state := GameState.GAME_OVER }
      else g
  | GAction.startGame =>
      if g.state = GameState.READY then { g with state := GameState.PLAYING } else g
  | GAction.restartGame =>
      if g.state = GameState.GAME_OVER then restart g else g

def runGame (g : GameSt) (acts : List GAction) : GameSt :=
  acts.foldl gameStep g

/-! ### Helper lemmas -/

/-- handleCollision never changes the merge queue observable after the call:
a rejected pair leaves it untouched, and an accepted pair inserts both ids and
erases them again within processMerge. -/
lemma handleCollision_mergeQueue (st : CHState) (a b : MBody) :
    (handleCollision st a b).mergeQueue = st.mergeQueue := by
  unfold handleCollision
  by_cases h1 : (!isFruitBody a || !isFruitBody b) = true
  · simp [h1]
  · by_cases h2 : a.fruitLevel ≠ b.fruitLevel
    · simp [h1, h2]
    · by_cases h3 : a.id ∈ st.mergeQueue ∨ b.id ∈ st.mergeQueue
      · simp [h1, h2, h3]
      · have ha : a.id ∉ st.mergeQueue := fun hmem => h3 (Or.inl hmem)
        have hb : b.id ∉ st.mergeQueue := fun hmem => h3 (Or.inr hmem)
        have hq : ((insert b.id (insert a.id st.mergeQueue)).erase a.id).erase b.id
            = st.mergeQueue := by
          ext x
          simp only [Finset.mem_erase, Finset.mem_insert]
          constructor
          · rintro ⟨hxb, hxa, hx | hx | hx⟩
            · exact absurd hx hxb
            · exact absurd hx hxa
            · exact hx
          · intro hx
            refine ⟨?_, ?_, Or.inr (Or.inr hx)⟩
            · rintro rfl; exact hb hx
            · rintro rfl; exact ha hx
        simp only [if_neg h1, if_neg h2, if_neg h3, processMerge]
        split <;> simp [hq]

/-- Rejected pairs are returned before any mutation (CollisionHandler.ts lines
55-74). -/
lemma handleCollision_rejected (st : CHState) (a b : MBody)
    (h : isFruitBody a = false ∨ isFruitBody b = false ∨ a.fruitLevel ≠ b.fruitLevel ∨
      a.id ∈ st.mergeQueue ∨ b.id ∈ st.mergeQueue) :
    handleCollision st a b = st := by
  rcases h with h | h | h | h | h <;> simp [handleCollision, h]

/-- Clearing all fruits leaves a fruit-free world. -/
lemma getFruits_clearFruits (p : PhysicsState) : getFruits (clearFruits p) = [] := by
  rw [List.eq_nil_iff_forall_not_mem]
  intro b hb
  simp only [getFruits, clearFruits, removeBodies, List.mem_filter,
    List.all_eq_true, decide_eq_true_eq] at hb
  obtain ⟨⟨hmem, hall⟩, hfruit⟩ := hb
  exact hall b (by simp [List.mem_filter, hmem, hfruit]) rfl

/-- Characterization of an accepted non-terminal merge at the handler level. -/
lemma handleCollision_accepted_merge (st : CHState) (a b : MBody) (l : FruitLevel)
    (ha : isFruitBody a = true) (hb : isFruitBody b = true)
    (hla : a.fruitLevel = l) (hlb : b.fruitLevel = l) (hmax : l ≠ WATERMELON)
    (hqa : a.id ∉ st.mergeQueue) (hqb : b.id ∉ st.mergeQueue) :
    handleCollision st a b =
      { physics :=
          { bodies := st.physics.bodies.filter (fun x => a.id ≠ x.id ∧ b.id ≠ x.id) ++
              [⟨st.physics.nextId, BodyLabel.fruit (l + 1), l + 1,
                (a.posX + b.posX) / 2, (a.posY + b.posY) / 2⟩],
            nextId := st.physics.nextId + 1 },
        mergeQueue := st.mergeQueue,
        out := st.out ++ [CHEvent.merge (l + 1) ((a.posX + b.posX) / 2)
          ((a.posY + b.posY) / 2) 0] } := by
  have hq : ((insert b.id (insert a.id st.mergeQueue)).erase a.id).erase b.id
      = st.mergeQueue := by
    ext x
    simp only [Finset.mem_erase, Finset.mem_insert]
    constructor
    · rintro ⟨hxb, hxa, hx | hx | hx⟩
      · exact absurd hx hxb
      · exact absurd hx hxa
      · exact hx
    · intro hx
      refine ⟨?_, ?_, Or.inr (Or.inr hx)⟩
      · rintro rfl; exact hqb hx
      · rintro rfl; exact hqa hx
  have hfilter : st.physics.bodies.filter (fun x => [a, b].all (fun bb => bb.id ≠ x.id))
      = st.physics.bodies.filter (fun x => a.id ≠ x.id ∧ b.id ≠ x.id) := by
    apply List.filter_congr
    intro x _
    by_cases h1 : a.id = x.id <;> by_cases h2 : b.id = x.id <;> simp [h1, h2]
  unfold handleCollision
  rw [if_neg (by simp [ha, hb])]
  simp only []
  rw [if_neg (by simp [hla, hlb]), if_neg (not_or.mpr ⟨hqa, hqb⟩)]
  unfold processMerge
  simp only []
  rw [if_neg (by simp [hla, hmax])]
  simp only [removeBodies, createFruit, addBody, hla]
  simp [hq, hfilter, hla]

/-- Characterization of an accepted terminal (watermelon) merge at the handler
level: both sources removed, no body created, one vanish event. -/
lemma handleCollision_accepted_vanish (st : CHState) (a b : MBody)
    (ha : isFruitBody a = true) (hb : isFruitBody b = true)
    (hla : a.fruitLevel = WATERMELON) (hlb : b.fruitLevel = WATERMELON)
    (hqa : a.id ∉ st.mergeQueue) (hqb : b.id ∉ st.mergeQueue) :
    handleCollision st a b =
      { physics :=
          { bodies := st.physics.bodies.filter (fun x => a.id ≠ x.id ∧ b.id ≠ x.id),
            nextId := st.physics.nextId },
        mergeQueue := st.mergeQueue,
        out := st.out ++ [CHEvent.vanish ((a.posX + b.posX) / 2)
          ((a.posY + b.posY) / 2)] } := by
  have hq : ((insert b.id (insert a.id st.mergeQueue)).erase a.id).erase b.id
      = st.mergeQueue := by
    ext x
    simp only [Finset.mem_erase, Finset.mem_insert]
    constructor
    · rintro ⟨hxb, hxa, hx | hx | hx⟩
      · exact absurd hx hxb
      · exact absurd hx hxa
      · exact hx
    · intro hx
      refine ⟨?_, ?_, Or.inr (Or.inr hx)⟩
      · rintro rfl; exact hqb hx
      · rintro rfl; exact hqa hx
  have hfilter : st.physics.bodies.filter (fun x => [a, b].all (fun bb => bb.id ≠ x.id))
      = st.physics.bodies.filter (fun x => a.id ≠ x.id ∧ b.id ≠ x.id) := by
    apply List.filter_congr
    intro x _
    by_cases h1 : a.id = x.id <;> by_cases h2 : b.id = x.id <;> simp [h1, h2]
  unfold handleCollision
  rw [if_neg (by simp [ha, hb])]
  simp only []
  rw [if_neg (by simp [hla, hlb]), if_neg (not_or.mpr ⟨hqa, hqb⟩)]
  unfold processMerge
  simp only []
  rw [if_pos (by simp [hla])]
  simp only [removeBodies]
  simp [hq, hfilter]

/-- startGracePeriod preserves the timer discipline. -/
lemma dcInv_startGracePeriod (st : DCState) (h : dcInv st) :
    dcInv (startGracePeriod st) := by
  unfold startGracePeriod
  cases hd : st.deadlineTimer with
  | some k => simpa [hd] using h
  | none =>
      have hp : st.pending = [] := by simpa [dcInv, hd] using h
      simp [dcInv, hd, hp]

/-- cancelGracePeriod preserves the timer discipline. -/
lemma dcInv_cancelGracePeriod (st : DCState) (h : dcInv st) :
    dcInv (cancelGracePeriod st) := by
  unfold cancelGracePeriod
  cases hd : st.deadlineTimer with
  | none => simpa [hd] using h
  | some k =>
      have hp : st.pending = [k] := ((by simpa [dcInv, hd] using h :
        st.pending = [k] ∧ k < st.nextHandle)).1
      simp [dcInv, hd, hp]

/-- A timeout elapsing preserves the timer discipline. -/
lemma dcInv_dcElapse (k : Nat) (st : DCState) (h : dcInv st) :
    dcInv (dcElapse k st) := by
  unfold dcElapse
  by_cases hk : k ∈ st.pending
  · cases hd : st.deadlineTimer with
    | none =>
        have hp : st.pending = [] := by simpa [dcInv, hd] using h
        rw [hp] at hk
        simp at hk
    | some j =>
        have hp : st.pending = [j] ∧ j < st.nextHandle := by simpa [dcInv, hd] using h
        have hkj : k = j := by
          have := hk
          rw [hp.1] at this
          simpa using this
        simp [hk, triggerGameOver, dcInv, hp.1, hkj]
  · simpa [hk] using h

/-- One checker step preserves the timer discipline. -/
lemma dcInv_dcStep (st : DCState) (act : DCAction) (h : dcInv st) :
    dcInv (dcStep st act) := by
  cases act with
  | check fruits =>
      unfold dcStep dcCheck
      by_cases hv : isAnyFruitOverDeadline fruits = true
      · simpa [hv] using dcInv_startGracePeriod st h
      · simp only [Bool.not_eq_true] at hv
        simpa [hv] using dcInv_cancelGracePeriod st h
  | elapse k => exact dcInv_dcElapse k st h

/-- Folding checker steps preserves the timer discipline. -/
lemma dcInv_foldl (acts : List DCAction) (st : DCState) (h : dcInv st) :
    dcInv (acts.foldl dcStep st) := by
  induction acts generalizing st with
  | nil => exact h
  | cons a as ih => exact ih _ (dcInv_dcStep st a h)

/-- Every state reachable by the deadline checker satisfies the timer
discipline. -/
lemma dcInv_dcRun (acts : List DCAction) : dcInv (dcRun acts) :=
  dcInv_foldl acts dcInit (by simp [dcInv, dcInit])

/-- The random draw always yields a droppable level. -/
lemma drawDroppable_mem (rand : List Nat) : (drawDroppable rand).1 ∈ DROPPABLE_LEVELS := by
  cases rand with
  | nil => simp [drawDroppable, DROPPABLE_LEVELS]
  | cons i rest =>
      have h5 : i % 5 = 0 ∨ i % 5 = 1 ∨ i % 5 = 2 ∨ i % 5 = 3 ∨ i % 5 = 4 := by omega
      rcases h5 with h | h | h | h | h <;>
        simp [drawDroppable, DROPPABLE_LEVELS, h]

/-- Droppable ranks have radii between the cherry's 25 and the persimmon's 75. -/
lemma droppable_radius_bounds (l : FruitLevel) (hl : l ∈ DROPPABLE_LEVELS) :
    25 ≤ fruitRadius l ∧ fruitRadius l ≤ 75 := by
  fin_cases hl <;> norm_num [fruitRadius]

/-- Clamping with any droppable radius keeps the aim inside the widest
droppable corridor (the rank-1 range). -/
lemma clampDropX_bounds (x r : ℚ) (h1 : 25 ≤ r) (h2 : r ≤ 75) :
    GAME_CONFIG.wallThickness + fruitRadius 1 ≤ clampDropX x r ∧
    clampDropX x r ≤ GAME_CONFIG.width - GAME_CONFIG.wallThickness - fruitRadius 1 := by
  unfold clampDropX getDropXRangeForFruit
  simp only [GAME_CONFIG, fruitRadius]
  constructor
  · exact le_trans (by linarith) (le_max_left _ _)
  · exact max_le (by linarith) (le_trans (min_le_left _ _) (by linarith))

/-- Clamping with radius r lands inside the per-radius corridor whenever the
corridor is nonempty (r ≤ 205). -/
lemma clampDropX_range (x r : ℚ) (h2 : r ≤ 205) :
    GAME_CONFIG.wallThickness + r ≤ clampDropX x r ∧
    clampDropX x r ≤ GAME_CONFIG.width - GAME_CONFIG.wallThickness - r := by
  unfold clampDropX getDropXRangeForFruit
  simp only [GAME_CONFIG]
  exact ⟨le_max_left _ _, max_le (by linarith) (min_le_left _ _)⟩

/-- Session invariant: the fruit queue holds droppable ranks and the aim lies
in the rank-1 (widest droppable) corridor. -/
def gameInv (g : GameSt) : Prop :=
  g.currentFruit ∈ DROPPABLE_LEVELS ∧ g.nextFruit ∈ DROPPABLE_LEVELS ∧
  GAME_CONFIG.wallThickness + fruitRadius 1 ≤ g.dropX ∧
  g.dropX ≤ GAME_CONFIG.width - GAME_CONFIG.wallThickness - fruitRadius 1

/-- The freshly constructed session satisfies the invariant. -/
lemma gameInv_gameInit (rand : List Nat) : gameInv (gameInit rand) := by
  refine ⟨drawDroppable_mem rand, drawDroppable_mem _, ?_, ?_⟩ <;>
    · show _ ≤ (_ : ℚ)
      norm_num [gameInit, GAME_CONFIG, fruitRadius]

/-- restart re-establishes the invariant unconditionally. -/
lemma gameInv_restart (g : GameSt) : gameInv (restart g) := by
  refine ⟨drawDroppable_mem _, drawDroppable_mem _, ?_, ?_⟩ <;>
    · show _ ≤ (_ : ℚ)
      norm_num [restart, GAME_CONFIG, fruitRadius]

/-- Every session action preserves the invariant. -/
lemma gameInv_gameStep (g : GameSt) (act : GAction) (h : gameInv g) :
    gameInv (gameStep g act) := by
  obtain ⟨hcf, hnf, hlo, hhi⟩ := h
  cases act with
  | mouseMove x =>
      simp only [gameStep]
      by_cases hs : g.state ≠ GameState.PLAYING
      · rw [if_pos hs]; exact ⟨hcf, hnf, hlo, hhi⟩
      · rw [if_neg hs]
        obtain ⟨hr1, hr2⟩ := droppable_radius_bounds g.currentFruit hcf
        obtain ⟨hc1, hc2⟩ := clampDropX_bounds x (fruitRadius g.currentFruit) hr1 hr2
        exact ⟨hcf, hnf, hc1, hc2⟩
  | keyLeft =>
      simp only [gameStep]
      by_cases hs : g.state ≠ GameState.PLAYING
      · rw [if_pos hs]; exact ⟨hcf, hnf, hlo, hhi⟩
      · rw [if_neg hs]
        obtain ⟨hr1, hr2⟩ := droppable_radius_bounds g.currentFruit hcf
        obtain ⟨hc1, hc2⟩ := clampDropX_bounds (g.dropX - 10) (fruitRadius g.currentFruit) hr1 hr2
        exact ⟨hcf, hnf, hc1, hc2⟩
  | keyRight =>
      simp only [gameStep]
      by_cases hs : g.state ≠ GameState.PLAYING
      · rw [if_pos hs]; exact ⟨hcf, hnf, hlo, hhi⟩
      · rw [if_neg hs]
        obtain ⟨hr1, hr2⟩ := droppable_radius_bounds g.currentFruit hcf
        obtain ⟨hc1, hc2⟩ := clampDropX_bounds (g.dropX + 10) (fruitRadius g.currentFruit) hr1 hr2
        exact ⟨hcf, hnf, hc1, hc2⟩
  | clickDrop now =>
      simp only [gameStep]
      by_cases hs : g.state = GameState.PLAYING ∧ g.canDrop = true
      · rw [if_pos hs]
        unfold dropFruit
        by_cases hcd : now - g.lastDropTime < GAME_CONFIG.dropCooldown
        · rw [if_pos hcd]; exact ⟨hcf, hnf, hlo, hhi⟩
        · rw [if_neg hcd]
          exact ⟨hnf, drawDroppable_mem _, hlo, hhi⟩
      · rw [if_neg hs]; exact ⟨hcf, hnf, hlo, hhi⟩
  | cooldownFire =>
      simp only [gameStep]
      by_cases hb : g.dropCooldownArmed = true
      · rw [if_pos hb]; exact ⟨hcf, hnf, hlo, hhi⟩
      · rw [if_neg hb]; exact ⟨hcf, hnf, hlo, hhi⟩
  | collide a b => exact ⟨hcf, hnf, hlo, hhi⟩
  | tickCheck =>
      simp only [gameStep]
      by_cases hs : g.state ≠ GameState.PLAYING
      · rw [if_pos hs]; exact ⟨hcf, hnf, hlo, hhi⟩
      · rw [if_neg hs]; exact ⟨hcf, hnf, hlo, hhi⟩
  | deadlineElapse k =>
      simp only [gameStep]
      by_cases hk : k ∈ g.dc.pending
      · rw [if_pos hk]; exact ⟨hcf, hnf, hlo, hhi⟩
      · rw [if_neg hk]; exact ⟨hcf, hnf, hlo, hhi⟩
  | startGame =>
      simp only [gameStep]
      by_cases hs : g.state = GameState.READY
      · rw [if_pos hs]; exact ⟨hcf, hnf, hlo, hhi⟩
      · rw [if_neg hs]; exact ⟨hcf, hnf, hlo, hhi⟩
  | restartGame =>
      simp only [gameStep]
      by_cases hs : g.state = GameState.GAME_OVER
      · rw [if_pos hs]; exact gameInv_restart g
      · rw [if_neg hs]; exact ⟨hcf, hnf, hlo, hhi⟩

/-- Folding session actions preserves the invariant. -/
lemma gameInv_runGame (g : GameSt) (acts : List GAction) (h : gameInv g) :
    gameInv (runGame g acts) := by
  unfold runGame
  induction acts generalizing g with
  | nil => exact h
  | cons a as ih => exact ih _ (gameInv_gameStep g a h)

/-! ### Claims -/

/-- C1.  The claim states calculateMergeScore(r) = r*(r-1)/2 for every merge
result rank 2 ≤ r ≤ 11.  The code's SCORE_TABLE is shifted by one slot:
calculateMergeScore(2) evaluates to 3 and calculateMergeScore(11) to 66,
whereas the claimed formula (which the repository's own tests in
fruits.test.ts lines 93-116 and 152-165 pin down: SCORE_TABLE[1] = 0,
SCORE_TABLE[n] = (n-1)·n/2, calculateMergeScore(2) = 1, …,
calculateMergeScore(11) = 55) gives 1 and 55.  This theorem evaluates the
code at the failing inputs. -/
theorem score_table_shifted_bug :
    calculateMergeScore 2 = 3 ∧ calculateMergeScore 11 = 66 ∧
    2 * (2 - 1) / 2 = 1 ∧ 11 * (11 - 1) / 2 = 55 ∧
    calculateMergeScore 2 ≠ 2 * (2 - 1) / 2 ∧
    calculateMergeScore 11 ≠ 11 * (11 - 1) / 2 := by
  decide

/-- C4.  The claim states the terminal (watermelon) bonus is strictly greater
than score(MAX_RANK).  In the code the bonus is 66 while
calculateMergeScore(11) also evaluates to 66 (the shifted SCORE_TABLE puts the
bonus value in the slot the score lookup reads), so the strict inequality
fails; the repository's own tests expect SCORE_TABLE[11] = 55, under which the
claim would hold. -/
theorem watermelon_bonus_not_strictly_greater_bug :
    WATERMELON_BONUS = 66 ∧ calculateMergeScore WATERMELON = 66 ∧
    ¬ calculateMergeScore WATERMELON < WATERMELON_BONUS := by
  decide

/-- C3 counterexample.  The claim states the emitted merge event carries
score(rank+1).  On a concrete accepted merge of two rank-1 fruits the emitted
event's score field is 0, which is neither the code's calculateMergeScore(2)
nor the claimed formula value 2*(2-1)/2 = 1: the event does not carry the
merge score at all. -/
theorem merge_event_score_field_cex :
    (handleCollision
        ⟨⟨[⟨7, BodyLabel.fruit 1, 1, 10, 20⟩, ⟨8, BodyLabel.fruit 1, 1, 30, 40⟩], 9⟩, ∅, []⟩
        ⟨7, BodyLabel.fruit 1, 1, 10, 20⟩ ⟨8, BodyLabel.fruit 1, 1, 30, 40⟩).out
      = [CHEvent.merge 2 20 30 0] ∧
    (0 : Nat) ≠ calculateMergeScore 2 ∧ (0 : Nat) ≠ 2 * (2 - 1) / 2 := by
  refine ⟨?_, by decide, by decide⟩
  norm_num [handleCollision, processMerge, isFruitBody, removeBodies, createFruit,
    addBody, WATERMELON]

/-- C3 (amended).  For every accepted collision of two equal-rank tokens of
rank below the maximum, the resolver removes both source tokens, creates
exactly one new token of rank+1 at the arithmetic midpoint of the two source
positions, and emits exactly one merge event carrying the new rank and the
midpoint; the event's score field is 0, the score being added downstream by
the ScoreManager wiring as calculateMergeScore(rank+1).  The merge queue is
unchanged after the call. -/
theorem merge_resolution_spec (g : GameSt) (a b : MBody) (l : FruitLevel)
    (ha : isFruitBody a = true) (hb : isFruitBody b = true)
    (hla : a.fruitLevel = l) (hlb : b.fruitLevel = l) (hmax : l ≠ WATERMELON)
    (hqa : a.id ∉ g.ch.mergeQueue) (hqb : b.id ∉ g.ch.mergeQueue) :
    (onCollisionGame g a b).ch.physics.bodies
        = g.ch.physics.bodies.filter (fun x => a.id ≠ x.id ∧ b.id ≠ x.id) ++
          [⟨g.ch.physics.nextId, BodyLabel.fruit (l + 1), l + 1,
            (a.posX + b.posX) / 2, (a.posY + b.posY) / 2⟩] ∧
    (onCollisionGame g a b).ch.physics.nextId = g.ch.physics.nextId + 1 ∧
    (onCollisionGame g a b).ch.out
        = g.ch.out ++ [CHEvent.merge (l + 1) ((a.posX + b.posX) / 2)
            ((a.posY + b.posY) / 2) 0] ∧
    (onCollisionGame g a b).score.current
        = g.score.current + calculateMergeScore (l + 1) ∧
    (onCollisionGame g a b).ch.mergeQueue = g.ch.mergeQueue := by
  unfold onCollisionGame
  rw [handleCollision_accepted_merge g.ch a b l ha hb hla hlb hmax hqa hqb]
  refine ⟨rfl, rfl, rfl, ?_, rfl⟩
  simp [List.drop_left, applyCollisionEvents, addMergeScore]

/-- Witness for C3: two rank-1 fruits merge into one rank-2 fruit at the
midpoint, the event's score field is 0, and the ledger gains
calculateMergeScore(2). -/
theorem merge_resolution_spec_witness :
    (onCollisionGame
        { ch := ⟨⟨[⟨7, BodyLabel.fruit 1, 1, 10, 20⟩, ⟨8, BodyLabel.fruit 1, 1, 30, 40⟩], 9⟩, ∅, []⟩,
          dc := dcInit, score := ⟨0, 0, 0⟩, state := GameState.PLAYING,
          currentFruit := 1, nextFruit := 1, canDrop := true, dropX := 225,
          lastDropTime := 0, dropCooldownArmed := false, rand := [] }
        ⟨7, BodyLabel.fruit 1, 1, 10, 20⟩ ⟨8, BodyLabel.fruit 1, 1, 30, 40⟩).ch.out
      = [CHEvent.merge 2 20 30 0] ∧
    (onCollisionGame
        { ch := ⟨⟨[⟨7, BodyLabel.fruit 1, 1, 10, 20⟩, ⟨8, BodyLabel.fruit 1, 1, 30, 40⟩], 9⟩, ∅, []⟩,
          dc := dcInit, score := ⟨0, 0, 0⟩, state := GameState.PLAYING,
          currentFruit := 1, nextFruit := 1, canDrop := true, dropX := 225,
          lastDropTime := 0, dropCooldownArmed := false, rand := [] }
        ⟨7, BodyLabel.fruit 1, 1, 10, 20⟩ ⟨8, BodyLabel.fruit 1, 1, 30, 40⟩).score.current
      = 0 + calculateMergeScore 2 := by
  have h := merge_resolution_spec
    { ch := ⟨⟨[⟨7, BodyLabel.fruit 1, 1, 10, 20⟩, ⟨8, BodyLabel.fruit 1, 1, 30, 40⟩], 9⟩, ∅, []⟩,
      dc := dcInit, score := ⟨0, 0, 0⟩, state := GameState.PLAYING,
      currentFruit := 1, nextFruit := 1, canDrop := true, dropX := 225,
      lastDropTime := 0, dropCooldownArmed := false, rand := [] }
    ⟨7, BodyLabel.fruit 1, 1, 10, 20⟩ ⟨8, BodyLabel.fruit 1, 1, 30, 40⟩ 1
    rfl rfl rfl rfl (by decide) (by decide) (by decide)
  constructor
  · rw [h.2.2.1]; norm_num
  · simpa using h.2.2.2.1

/-- C7.  For every accepted collision of two maximum-rank (watermelon)
tokens: zero new tokens are created (the body list only loses the two sources
and the id counter does not advance), a vanish event carrying the midpoint is
emitted exactly once, and the terminal bonus is added to the score exactly
once.  The merge queue is unchanged after the call. -/
theorem watermelon_vanish_spec (g : GameSt) (a b : MBody)
    (ha : isFruitBody a = true) (hb : isFruitBody b = true)
    (hla : a.fruitLevel = WATERMELON) (hlb : b.fruitLevel = WATERMELON)
    (hqa : a.id ∉ g.ch.mergeQueue) (hqb : b.id ∉ g.ch.mergeQueue) :
    (onCollisionGame g a b).ch.physics.bodies
        = g.ch.physics.bodies.filter (fun x => a.id ≠ x.id ∧ b.id ≠ x.id) ∧
    (onCollisionGame g a b).ch.physics.nextId = g.ch.physics.nextId ∧
    (onCollisionGame g a b).ch.out
        = g.ch.out ++ [CHEvent.vanish ((a.posX + b.posX) / 2) ((a.posY + b.posY) / 2)] ∧
    (onCollisionGame g a b).score.current = g.score.current + WATERMELON_BONUS ∧
    (onCollisionGame g a b).ch.mergeQueue = g.ch.mergeQueue := by
  unfold onCollisionGame
  rw [handleCollision_accepted_vanish g.ch a b ha hb hla hlb hqa hqb]
  refine ⟨rfl, rfl, rfl, ?_, rfl⟩
  simp [List.drop_left, applyCollisionEvents, addWatermelonBonus]

/-- Witness for C7: two watermelons vanish, leaving no fruit and adding the
66-point bonus once. -/
theorem watermelon_vanish_spec_witness :
    (onCollisionGame
        { ch := ⟨⟨[⟨21, BodyLabel.fruit 11, 11, 100, 200⟩, ⟨22, BodyLabel.fruit 11, 11, 300, 400⟩], 23⟩, ∅, []⟩,
          dc := dcInit, score := ⟨10, 10, 1⟩, state := GameState.PLAYING,
          currentFruit := 1, nextFruit := 1, canDrop := true, dropX := 225,
          lastDropTime := 0, dropCooldownArmed := false, rand := [] }
        ⟨21, BodyLabel.fruit 11, 11, 100, 200⟩ ⟨22, BodyLabel.fruit 11, 11, 300, 400⟩).score.current
      = 10 + WATERMELON_BONUS ∧
    (onCollisionGame
        { ch := ⟨⟨[⟨21, BodyLabel.fruit 11, 11, 100, 200⟩, ⟨22, BodyLabel.fruit 11, 11, 300, 400⟩], 23⟩, ∅, []⟩,
          dc := dcInit, score := ⟨10, 10, 1⟩, state := GameState.PLAYING,
          currentFruit := 1, nextFruit := 1, canDrop := true, dropX := 225,
          lastDropTime := 0, dropCooldownArmed := false, rand := [] }
        ⟨21, BodyLabel.fruit 11, 11, 100, 200⟩ ⟨22, BodyLabel.fruit 11, 11, 300, 400⟩).ch.physics.nextId
      = 23 := by
  have h := watermelon_vanish_spec
    { ch := ⟨⟨[⟨21, BodyLabel.fruit 11, 11, 100, 200⟩, ⟨22, BodyLabel.fruit 11, 11, 300, 400⟩], 23⟩, ∅, []⟩,
      dc := dcInit, score := ⟨10, 10, 1⟩, state := GameState.PLAYING,
      currentFruit := 1, nextFruit := 1, canDrop := true, dropX := 225,
      lastDropTime := 0, dropCooldownArmed := false, rand := [] }
    ⟨21, BodyLabel.fruit 11, 11, 100, 200⟩ ⟨22, BodyLabel.fruit 11, 11, 300, 400⟩
    rfl rfl rfl rfl (by decide) (by decide)
  exact ⟨h.2.2.2.1, h.2.1⟩

/-- C2.  The claim states that two pairs sharing a token, reported in one
tick, produce exactly one merge.  The code removes both ids from the merge
queue inside the same handleCollision call that inserted them, so when the
pairs (101,102) and then (102,103) of three touching level-3 fruits are
delivered, the second pair is not rejected: two merge events fire and two
level-4 fruits are created, token 102 being consumed by both merges.  This
theorem evaluates the handler on that failing input. -/
theorem triple_collision_double_merge_bug :
    (handleCollision
        (handleCollision
          ⟨⟨[⟨101, BodyLabel.fruit 3, 3, 0, 0⟩, ⟨102, BodyLabel.fruit 3, 3, 2, 0⟩,
             ⟨103, BodyLabel.fruit 3, 3, 4, 0⟩], 104⟩, ∅, []⟩
          ⟨101, BodyLabel.fruit 3, 3, 0, 0⟩ ⟨102, BodyLabel.fruit 3, 3, 2, 0⟩)
        ⟨102, BodyLabel.fruit 3, 3, 2, 0⟩ ⟨103, BodyLabel.fruit 3, 3, 4, 0⟩).out
      = [CHEvent.merge 4 1 0 0, CHEvent.merge 4 3 0 0] ∧
    getFruits (handleCollision
        (handleCollision
          ⟨⟨[⟨101, BodyLabel.fruit 3, 3, 0, 0⟩, ⟨102, BodyLabel.fruit 3, 3, 2, 0⟩,
             ⟨103, BodyLabel.fruit 3, 3, 4, 0⟩], 104⟩, ∅, []⟩
          ⟨101, BodyLabel.fruit 3, 3, 0, 0⟩ ⟨102, BodyLabel.fruit 3, 3, 2, 0⟩)
        ⟨102, BodyLabel.fruit 3, 3, 2, 0⟩ ⟨103, BodyLabel.fruit 3, 3, 4, 0⟩).physics
      = [⟨104, BodyLabel.fruit 4, 4, 1, 0⟩, ⟨105, BodyLabel.fruit 4, 4, 3, 0⟩] := by
  constructor <;>
    norm_num [handleCollision, processMerge, isFruitBody, removeBodies, createFruit,
      addBody, getFruits, WATERMELON]

/-- C8.  A rejected collision pair — a non-token body, unequal ranks, or an
identity already in the merge-in-flight set — produces no side effects at all:
the whole session state (bodies, queue, emitted events, score) is returned
unchanged. -/
theorem rejected_collision_no_side_effects (g : GameSt) (a b : MBody)
    (h : isFruitBody a = false ∨ isFruitBody b = false ∨ a.fruitLevel ≠ b.fruitLevel ∨
      a.id ∈ g.ch.mergeQueue ∨ b.id ∈ g.ch.mergeQueue) :
    onCollisionGame g a b = g := by
  unfold onCollisionGame
  rw [handleCollision_rejected g.ch a b h]
  simp [List.drop_length, applyCollisionEvents]

/-- Witness for C8: a wall hitting a fruit is rejected without side effects. -/
theorem rejected_collision_no_side_effects_witness :
    isFruitBody ⟨2, BodyLabel.wall_left, 0, 10, 300⟩ = false ∧
    onCollisionGame (gameInit [])
        ⟨2, BodyLabel.wall_left, 0, 10, 300⟩ ⟨4, BodyLabel.fruit 1, 1, 45, 80⟩
      = gameInit [] :=
  ⟨rfl, rejected_collision_no_side_effects (gameInit [])
    ⟨2, BodyLabel.wall_left, 0, 10, 300⟩ ⟨4, BodyLabel.fruit 1, 1, 45, 80⟩
    (Or.inl rfl)⟩

/-- C10.  The merge-in-flight set is empty again after every handleCollision
call returns: the ids of an accepted pair are inserted and erased within the
processing of that single pair, so the set never carries entries between
collision events. -/
theorem mergeQueue_empty_between_collisions (st : CHState) (a b : MBody)
    (h : st.mergeQueue = ∅) :
    (handleCollision st a b).mergeQueue = ∅ := by
  rw [handleCollision_mergeQueue, h]

/-- Witness for C10: an accepted equal-rank pair leaves the queue empty. -/
theorem mergeQueue_empty_between_collisions_witness :
    (⟨⟨[⟨7, BodyLabel.fruit 1, 1, 10, 20⟩, ⟨8, BodyLabel.fruit 1, 1, 30, 40⟩], 9⟩, ∅, []⟩
        : CHState).mergeQueue = ∅ ∧
    (handleCollision
        ⟨⟨[⟨7, BodyLabel.fruit 1, 1, 10, 20⟩, ⟨8, BodyLabel.fruit 1, 1, 30, 40⟩], 9⟩, ∅, []⟩
        ⟨7, BodyLabel.fruit 1, 1, 10, 20⟩ ⟨8, BodyLabel.fruit 1, 1, 30, 40⟩).mergeQueue = ∅ :=
  ⟨rfl, mergeQueue_empty_between_collisions
    ⟨⟨[⟨7, BodyLabel.fruit 1, 1, 10, 20⟩, ⟨8, BodyLabel.fruit 1, 1, 30, 40⟩], 9⟩, ∅, []⟩
    ⟨7, BodyLabel.fruit 1, 1, 10, 20⟩ ⟨8, BodyLabel.fruit 1, 1, 30, 40⟩ rfl⟩

/-- C5.  The deadline monitor protocol: (1) every reachable checker state has
at most one outstanding timer (exactly the tracked one); (2) a check that
finds a violating token while no timer is outstanding arms exactly one fresh
timer and emits warning-started; (3) a check that finds a violation while a
timer is outstanding changes nothing (no additional timer); (4) a check that
finds no violation leaves no outstanding timer, emits warning-cleared exactly
when a timer was outstanding, and is a no-op otherwise; (5) the game-over
count can change only by an armed, uncancelled timer elapsing. -/
theorem deadline_checker_protocol :
    (∀ acts : List DCAction, dcInv (dcRun acts)) ∧
    (∀ (st : DCState) (fruits : List MBody),
      dcInv st → st.deadlineTimer = none → isAnyFruitOverDeadline fruits = true →
        (dcCheck fruits st).deadlineTimer = some st.nextHandle ∧
        (dcCheck fruits st).pending = [st.nextHandle] ∧
        st.nextHandle ∉ st.pending ∧
        (dcCheck fruits st).warnings = st.warnings ++ [true] ∧
        (dcCheck fruits st).gameOverCount = st.gameOverCount) ∧
    (∀ (st : DCState) (fruits : List MBody) (k : Nat),
      st.deadlineTimer = some k → isAnyFruitOverDeadline fruits = true →
        dcCheck fruits st = st) ∧
    (∀ (st : DCState) (fruits : List MBody),
      dcInv st → isAnyFruitOverDeadline fruits = false →
        (dcCheck fruits st).pending = [] ∧
        (dcCheck fruits st).deadlineTimer = none ∧
        (∀ k, st.deadlineTimer = some k →
          (dcCheck fruits st).warnings = st.warnings ++ [false]) ∧
        (st.deadlineTimer = none → dcCheck fruits st = st) ∧
        (dcCheck fruits st).gameOverCount = st.gameOverCount) ∧
    (∀ (st : DCState) (act : DCAction),
      (dcStep st act).gameOverCount ≠ st.gameOverCount →
        ∃ k, act = DCAction.elapse k ∧ k ∈ st.pending) := by
  refine ⟨dcInv_dcRun, ?_, ?_, ?_, ?_⟩
  · intro st fruits hinv hd hv
    have hp : st.pending = [] := by simpa [dcInv, hd] using hinv
    simp [dcCheck, hv, startGracePeriod, hd, hp]
  · intro st fruits k hd hv
    simp [dcCheck, hv, startGracePeriod, hd]
  · intro st fruits hinv hv
    cases hd : st.deadlineTimer with
    | none =>
        have hp : st.pending = [] := by simpa [dcInv, hd] using hinv
        simp [dcCheck, hv, cancelGracePeriod, hd, hp]
    | some k =>
        have hp : st.pending = [k] := ((by simpa [dcInv, hd] using hinv :
          st.pending = [k] ∧ k < st.nextHandle)).1
        simp [dcCheck, hv, cancelGracePeriod, hd, hp]
  · intro st act hne
    cases act with
    | check fruits =>
        exfalso
        apply hne
        unfold dcStep dcCheck
        by_cases hv : isAnyFruitOverDeadline fruits = true
        · simp only [hv, if_pos]
          unfold startGracePeriod
          cases hd : st.deadlineTimer <;> simp [hd]
        · simp only [Bool.not_eq_true] at hv
          simp only [hv, Bool.false_eq_true, if_neg, not_false_iff]
          unfold cancelGracePeriod
          cases hd : st.deadlineTimer <;> simp [hd]
    | elapse k =>
        refine ⟨k, rfl, ?_⟩
        by_contra hk
        apply hne
        simp [dcStep, dcElapse, hk]

/-- Witness for C5: a rank-3 fruit at y = 100 has top edge 52 above the
deadline 100, so the first check arms timer handle 0; a second violating check
is a no-op; a clear check cancels; an elapse of the armed timer is the only
source of game-over. -/
theorem deadline_checker_protocol_witness :
    dcInv (dcRun [DCAction.check [⟨9, BodyLabel.fruit 3, 3, 50, 100⟩]]) ∧
    (dcCheck [⟨9, BodyLabel.fruit 3, 3, 50, 100⟩] dcInit).deadlineTimer = some 0 ∧
    (dcCheck [⟨9, BodyLabel.fruit 3, 3, 50, 100⟩] dcInit).pending = [0] ∧
    (dcCheck [⟨9, BodyLabel.fruit 3, 3, 50, 100⟩] dcInit).warnings = [true] := by
  have hviol : isAnyFruitOverDeadline [⟨9, BodyLabel.fruit 3, 3, 50, 100⟩] = true := by
    norm_num [isAnyFruitOverDeadline, fruitRadius, GAME_CONFIG]
  have h := deadline_checker_protocol.2.1 dcInit [⟨9, BodyLabel.fruit 3, 3, 50, 100⟩]
    (by simp [dcInv, dcInit]) rfl hviol
  exact ⟨deadline_checker_protocol.1 [DCAction.check [⟨9, BodyLabel.fruit 3, 3, 50, 100⟩]],
    h.1, by simpa using h.2.1, by simpa using h.2.2.2.1⟩

/-- C6.  After restart(), in every state whose deadline component obeys the
timer discipline (which every reachable state does): the board holds zero
tokens, the score is zero, the high score is preserved, the merge-in-flight
set is empty, the deadline timer has been cancelled (no timeout outstanding),
any timeout elapsing afterwards is a no-op — so no stale game-over can fire —
and the session returns to PLAYING. -/
theorem restart_resets_session (g : GameSt) (hinv : dcInv g.dc) :
    getFruits (restart g).ch.physics = [] ∧
    (restart g).score.current = 0 ∧
    (restart g).score.highScore = g.score.highScore ∧
    (restart g).ch.mergeQueue = ∅ ∧
    (restart g).dc.deadlineTimer = none ∧
    (restart g).dc.pending = [] ∧
    (∀ k, dcElapse k (restart g).dc = (restart g).dc) ∧
    (∀ k, (dcElapse k (restart g).dc).gameOverCount = g.dc.gameOverCount) ∧
    (restart g).state = GameState.PLAYING := by
  have hdc : (restart g).dc = cancelGracePeriod g.dc := rfl
  have hcancel : (cancelGracePeriod g.dc).pending = [] ∧
      (cancelGracePeriod g.dc).deadlineTimer = none ∧
      (cancelGracePeriod g.dc).gameOverCount = g.dc.gameOverCount := by
    unfold cancelGracePeriod
    cases hd : g.dc.deadlineTimer with
    | none =>
        have hp : g.dc.pending = [] := by simpa [dcInv, hd] using hinv
        simp [hd, hp]
    | some k =>
        have hp : g.dc.pending = [k] := ((by simpa [dcInv, hd] using hinv :
          g.dc.pending = [k] ∧ k < g.dc.nextHandle)).1
        simp [hd, hp]
  have helapse : ∀ k, dcElapse k (restart g).dc = (restart g).dc := by
    intro k
    rw [hdc]
    unfold dcElapse
    rw [if_neg (by rw [hcancel.1]; simp)]
  refine ⟨?_, rfl, rfl, rfl, ?_, ?_, helapse, ?_, rfl⟩
  · exact getFruits_clearFruits g.ch.physics
  · rw [hdc]; exact hcancel.2.1
  · rw [hdc]; exact hcancel.1
  · intro k
    rw [helapse k, hdc]
    exact hcancel.2.2

/-- Witness for C6: restarting a session with a non-empty board, a positive
score, a recorded high score and an armed grace timer clears everything and
preserves the high score; the stale timer handle firing afterwards is inert. -/
theorem restart_resets_session_witness :
    getFruits (restart
        { ch := ⟨⟨[⟨1, BodyLabel.floor, 0, 225, 590⟩, ⟨4, BodyLabel.fruit 2, 2, 100, 90⟩], 5⟩, ∅, []⟩,
          dc := ⟨some 0, true, [0], 1, [true], 0⟩, score := ⟨120, 150, 3⟩,
          state := GameState.GAME_OVER, currentFruit := 1, nextFruit := 2,
          canDrop := false, dropX := 100, lastDropTime := 7, dropCooldownArmed := true,
          rand := [0, 1] }).ch.physics = [] ∧
    (restart
        { ch := ⟨⟨[⟨1, BodyLabel.floor, 0, 225, 590⟩, ⟨4, BodyLabel.fruit 2, 2, 100, 90⟩], 5⟩, ∅, []⟩,
          dc := ⟨some 0, true, [0], 1, [true], 0⟩, score := ⟨120, 150, 3⟩,
          state := GameState.GAME_OVER, currentFruit := 1, nextFruit := 2,
          canDrop := false, dropX := 100, lastDropTime := 7, dropCooldownArmed := true,
          rand := [0, 1] }).score.current = 0 ∧
    (restart
        { ch := ⟨⟨[⟨1, BodyLabel.floor, 0, 225, 590⟩, ⟨4, BodyLabel.fruit 2, 2, 100, 90⟩], 5⟩, ∅, []⟩,
          dc := ⟨some 0, true, [0], 1, [true], 0⟩, score := ⟨120, 150, 3⟩,
          state := GameState.GAME_OVER, currentFruit := 1, nextFruit := 2,
          canDrop := false, dropX := 100, lastDropTime := 7, dropCooldownArmed := true,
          rand := [0, 1] }).score.highScore = 150 ∧
    (restart
        { ch := ⟨⟨[⟨1, BodyLabel.floor, 0, 225, 590⟩, ⟨4, BodyLabel.fruit 2, 2, 100, 90⟩], 5⟩, ∅, []⟩,
          dc := ⟨some 0, true, [0], 1, [true], 0⟩, score := ⟨120, 150, 3⟩,
          state := GameState.GAME_OVER, currentFruit := 1, nextFruit := 2,
          canDrop := false, dropX := 100, lastDropTime := 7, dropCooldownArmed := true,
          rand := [0, 1] }).dc.pending = [] ∧
    (∀ k, (dcElapse k (restart
        { ch := ⟨⟨[⟨1, BodyLabel.floor, 0, 225, 590⟩, ⟨4, BodyLabel.fruit 2, 2, 100, 90⟩], 5⟩, ∅, []⟩,
          dc := ⟨some 0, true, [0], 1, [true], 0⟩, score := ⟨120, 150, 3⟩,
          state := GameState.GAME_OVER, currentFruit := 1, nextFruit := 2,
          canDrop := false, dropX := 100, lastDropTime := 7, dropCooldownArmed := true,
          rand := [0, 1] }).dc).gameOverCount = 0) := by
  have h := restart_resets_session
    { ch := ⟨⟨[⟨1, BodyLabel.floor, 0, 225, 590⟩, ⟨4, BodyLabel.fruit 2, 2, 100, 90⟩], 5⟩, ∅, []⟩,
      dc := ⟨some 0, true, [0], 1, [true], 0⟩, score := ⟨120, 150, 3⟩,
      state := GameState.GAME_OVER, currentFruit := 1, nextFruit := 2,
      canDrop := false, dropX := 100, lastDropTime := 7, dropCooldownArmed := true,
      rand := [0, 1] }
    (by simp [dcInv])
  exact ⟨h.1, h.2.1, h.2.2.1, h.2.2.2.2.2.1, h.2.2.2.2.2.2.2.1⟩

/-- C9 counterexample.  The claim states every drop lands within the dropped
rank's own corridor [wall + r, width - wall - r].  Trace: the queue starts
(cherry, persimmon); the player aims at x = 0 while the cherry is current
(clamped to 45 with the cherry radius 25), drops the cherry, waits out the
cooldown and drops again without moving.  The second drop creates the
persimmon (rank 5, radius 75) at x = 45, outside its corridor [95, 355]: the
stored aim is not re-clamped for the rank actually dropped. -/
theorem drop_outside_current_rank_range_cex :
    getFruits (runGame (gameInit [0, 4, 0])
        [GAction.startGame, GAction.mouseMove 0, GAction.clickDrop 1000,
         GAction.cooldownFire, GAction.clickDrop 2000]).ch.physics
      = [⟨4, BodyLabel.fruit 1, 1, 45, 80⟩, ⟨5, BodyLabel.fruit 5, 5, 45, 80⟩] ∧
    ¬ GAME_CONFIG.wallThickness + fruitRadius 5 ≤ (45 : ℚ) := by
  constructor
  · norm_num [runGame, gameStep, gameInit, dropFruit, drawDroppable, DROPPABLE_LEVELS,
      clampDropX, getDropXRangeForFruit, GAME_CONFIG, fruitRadius, createFruit, addBody,
      physicsInit, getFruits, isFruitBody]
  · norm_num [GAME_CONFIG, fruitRadius]

/-- C9 (amended).  Every drop performed while Playing with dropping enabled
and the cooldown elapsed creates one token of the current droppable rank at
the stored aim x-coordinate and the fixed spawn height.  In every reachable
session state the stored aim lies within [wallThickness + 25, fieldWidth -
wallThickness - 25], the corridor of the smallest droppable rank; it lies in
the dropped rank's own tighter corridor [wallThickness + r, fieldWidth -
wallThickness - r] when the aim was last set while that rank was current
(e.g. immediately after a pointer move), but not necessarily after the rank
queue has advanced. -/
theorem drop_clamp_range_spec :
    (∀ (rand : List Nat) (acts : List GAction),
      GAME_CONFIG.wallThickness + fruitRadius 1 ≤ (runGame (gameInit rand) acts).dropX ∧
      (runGame (gameInit rand) acts).dropX
          ≤ GAME_CONFIG.width - GAME_CONFIG.wallThickness - fruitRadius 1 ∧
      (runGame (gameInit rand) acts).currentFruit ∈ DROPPABLE_LEVELS) ∧
    (∀ (g : GameSt) (now : ℚ), gameInv g →
      g.state = GameState.PLAYING → g.canDrop = true →
      ¬ now - g.lastDropTime < GAME_CONFIG.dropCooldown →
      (gameStep g (GAction.clickDrop now)).ch.physics.bodies
          = g.ch.physics.bodies ++
            [⟨g.ch.physics.nextId, BodyLabel.fruit g.currentFruit, g.currentFruit,
              g.dropX, GAME_CONFIG.dropY⟩] ∧
      GAME_CONFIG.wallThickness + fruitRadius 1 ≤ g.dropX ∧
      g.dropX ≤ GAME_CONFIG.width - GAME_CONFIG.wallThickness - fruitRadius 1) ∧
    (∀ (g : GameSt) (x : ℚ), gameInv g → g.state = GameState.PLAYING →
      GAME_CONFIG.wallThickness + fruitRadius g.currentFruit
          ≤ (gameStep g (GAction.mouseMove x)).dropX ∧
      (gameStep g (GAction.mouseMove x)).dropX
          ≤ GAME_CONFIG.width - GAME_CONFIG.wallThickness - fruitRadius g.currentFruit) := by
  refine ⟨?_, ?_, ?_⟩
  · intro rand acts
    obtain ⟨hcf, _, hlo, hhi⟩ := gameInv_runGame (gameInit rand) acts (gameInv_gameInit rand)
    exact ⟨hlo, hhi, hcf⟩
  · intro g now hinv hs hc hcd
    obtain ⟨_, _, hlo, hhi⟩ := hinv
    refine ⟨?_, hlo, hhi⟩
    simp only [gameStep]
    rw [if_pos ⟨hs, hc⟩]
    unfold dropFruit
    rw [if_neg hcd]
    rfl
  · intro g x hinv hs
    obtain ⟨hcf, _, _, _⟩ := hinv
    simp only [gameStep]
    rw [if_neg (by simp [hs])]
    obtain ⟨_, hr2⟩ := droppable_radius_bounds g.currentFruit hcf
    exact clampDropX_range x (fruitRadius g.currentFruit) (by linarith)

/-- Witness for C9: a rank-2 fruit is dropped at the stored aim x = 100, which
lies inside the rank-1 corridor [45, 405]. -/
theorem drop_clamp_range_spec_witness :
    (gameStep
        { ch := ⟨physicsInit, ∅, []⟩, dc := dcInit, score := ⟨0, 0, 0⟩,
          state := GameState.PLAYING, currentFruit := 2, nextFruit := 3,
          canDrop := true, dropX := 100, lastDropTime := 0,
          dropCooldownArmed := false, rand := [] }
        (GAction.clickDrop 600)).ch.physics.bodies
      = physicsInit.bodies ++ [⟨4, BodyLabel.fruit 2, 2, 100, GAME_CONFIG.dropY⟩] ∧
    GAME_CONFIG.wallThickness + fruitRadius 1 ≤ (100 : ℚ) := by
  have h := drop_clamp_range_spec.2.1
    { ch := ⟨physicsInit, ∅, []⟩, dc := dcInit, score := ⟨0, 0, 0⟩,
      state := GameState.PLAYING, currentFruit := 2, nextFruit := 3,
      canDrop := true, dropX := 100, lastDropTime := 0,
      dropCooldownArmed := false, rand := [] }
    600
    ⟨by decide, by decide, by norm_num [GAME_CONFIG, fruitRadius],
      by norm_num [GAME_CONFIG, fruitRadius]⟩
    rfl rfl (by norm_num [GAME_CONFIG])
  exact ⟨h.1, h.2.1⟩

end Watermelon
